import Mathlib

/-!
Verification development for the Ambientor real-time ambient sound engine
and its Python binding layer (`ambientor_py`).

The repository ships the Python binding (`python/ambientor_py/__init__.py`,
`python/ambientor_py/_version.py`); the native engine itself (built from
`src/lib.rs` via pyo3) is not part of the available sources, so the engine
core below is modelled from the specification (`spec.md`), as indicated on
each definition.  Real-valued audio quantities (sample rate, gain, samples)
are embedded as rationals so that every definition is executable and exact.
-/

namespace Ambientor

/-- Modelled from the spec: `AudioFormat` (§3) — immutable construction
parameters of the missing native engine: sample rate (a positive real, Hz),
channel count (a positive integer), master gain.  `channels` is an integer
(the host passes a Python `int`, which may be non-positive before
validation); `construct` rejects values `< 1`. -/
structure AudioFormat where
  sampleRate : ℚ
  channels : ℤ
  gain : ℚ
  deriving Repr, DecidableEq

/-- Modelled from the spec: a layer of the Layer Stack (§3, §4.1–4.2) of the
missing native engine.  A Generator's sample is a pure function of
`(clock value, internal state)` and its internal state advances
deterministically by exactly one step per tick, in lockstep with the shared
Clock; hence the sample a generator emits at clock `t` is a function of `t`
and its (fixed) initial state, embedded here as `gen : ℕ → ℚ`.  Each layer
carries its own gain and per-channel pan weights (the spec recommends an
equal-power pan law; the claims do not depend on the particular weights, so
the weights are kept abstract per channel). -/
structure Layer where
  gen : ℕ → ℚ
  layerGain : ℚ
  panWeight : ℕ → ℚ

/-- Modelled from the spec: the contribution of one layer to channel `c` at
clock `t` — the generator's sample scaled by the layer gain and the
channel's pan weight (§4.2). -/
def Layer.sampleAt (l : Layer) (t c : ℕ) : ℚ :=
  l.layerGain * l.panWeight c * l.gen t

/-- Modelled from the spec: the Layer Stack tick (§4.2) — every active
generator is evaluated once at clock `t` and the pan/gain-scaled samples are
summed into the channel-`c` accumulator. -/
def stackTick (layers : List Layer) (t c : ℕ) : ℚ :=
  (layers.map fun l => l.sampleAt t c).sum

/-- Modelled from the spec: the Mixer's soft limiter (§4.3) — values with
`|x| ≤ 1` pass through unchanged; values beyond that are saturated into the
valid range `[-1, 1]` (the spec's tanh-style curve is not otherwise
observable; only its identity-below-threshold and boundedness properties are
specified, which this saturation realizes exactly). -/
def softLimit (x : ℚ) : ℚ :=
  if 1 < x then 1 else if x < -1 then -1 else x

/-- Modelled from the spec: the Mixer (§4.3) — multiply the accumulated
frame value by the master gain, then apply the soft limiter. -/
def mixSample (gain x : ℚ) : ℚ :=
  softLimit (gain * x)

/-- Modelled from the spec: the Render Engine state (§3, §4.4) of the
missing native engine — the immutable `AudioFormat`, the Layer Stack, and
the monotonically increasing sample-index Clock. -/
structure Engine where
  fmt : AudioFormat
  layers : List Layer
  clock : ℕ

/-- Modelled from the spec: the error taxonomy (§7) of the missing native
engine. -/
inductive EngineError where
  | configurationError
  | invalidArgument
  | ioError
  deriving Repr, DecidableEq

/-- Modelled from the spec: `construct(format)` (§4.4) — validates
sample rate > 0 and channel count ≥ 1, failing with a `ConfigurationError`
otherwise (before any state mutation); on success the Clock is initialized
to 0 and the given Layer Stack is installed. -/
def construct (fmt : AudioFormat) (layers : List Layer) : Except EngineError Engine :=
  if 0 < fmt.sampleRate ∧ 1 ≤ fmt.channels then
    .ok { fmt := fmt, layers := layers, clock := 0 }
  else
    .error .configurationError

/-- Modelled from the spec: the implementation-defined upper bound on a
single `render_block` request (§4.4 rejects "absurdly large" frame counts;
the bound's exact value is implementation-defined and no claim depends on
it). -/
def maxBlockFrames : ℕ := 2 ^ 24

/-- Modelled from the spec: one interleaved output frame at clock `t` — for
each channel, the Layer Stack accumulator is mixed (master gain, then soft
limiter) (§4.2–4.4). -/
def frameAt (e : Engine) (t : ℕ) : List ℚ :=
  (List.range e.fmt.channels.toNat).map fun c => mixSample e.fmt.gain (stackTick e.layers t c)

/-- Modelled from the spec: `n` consecutive interleaved frames starting at
clock `start` (§4.4). -/
def renderFrames (e : Engine) (start n : ℕ) : List ℚ :=
  ((List.range n).map fun i => frameAt e (start + i)).flatten

/-- Modelled from the spec: `render_block(frame_count)` (§4.4) — a negative
or absurdly large `frame_count` fails with `InvalidArgument` before any
tick, leaving the Clock and all Generator states untouched (the failing
call returns no new engine state, so the caller's engine value is exactly
the pre-call one); otherwise the engine ticks exactly `frame_count` times,
the Clock advances by `frame_count`, and an interleaved buffer of
`frame_count × channels` samples is returned. -/
def render_block (e : Engine) (n : ℤ) : Except EngineError (List ℚ × Engine) :=
  if n < 0 then .error .invalidArgument
  else if maxBlockFrames < n.toNat then .error .invalidArgument
  else .ok (renderFrames e e.clock n.toNat, { e with clock := e.clock + n.toNat })

/-- Modelled from the spec: the bounded chunk size used by offline
rendering to cap peak memory (§4.4, §4.5); its exact value is
implementation-defined and no claim depends on it. -/
def chunkFrames : ℕ := 4096

/-- Modelled from the spec: the chunked render loop of
`render_duration(seconds)` (§4.4) — repeatedly calls `render_block` with at
most `chunkFrames` frames until `remaining` frames are produced,
concatenating in order.  `fuel` bounds the recursion; every chunk produces
at least one frame, so `fuel = remaining` always suffices (proved below in
`renderChunksAux_eq`). -/
def renderChunksAux (e : Engine) (remaining : ℕ) : ℕ → List ℚ × Engine
  | 0 => ([], e)
  | fuel + 1 =>
    if remaining = 0 then ([], e)
    else
      let step := min chunkFrames remaining
      match render_block e (step : ℤ) with
      | .ok (buf, e2) =>
        let rest := renderChunksAux e2 (remaining - step) fuel
        (buf ++ rest.1, rest.2)
      | .error _ => ([], e)

/-- Modelled from the spec: `render_duration` (§4.4) — produce exactly
`total` frames through the bounded-chunk loop. -/
def renderDuration (e : Engine) (total : ℕ) : List ℚ × Engine :=
  renderChunksAux e total total

/-- Modelled from the spec: the header of the Audio File Artifact (§3,
§4.5, §6) — declares the engine's sample rate and channel count,
bits-per-sample, and the data-chunk byte length; a consumer reading the
header alone can determine the total frame count. -/
structure WavHeader where
  sampleRate : ℚ
  channels : ℤ
  bitsPerSample : ℕ
  dataByteLen : ℕ
  frameCount : ℕ
  deriving Repr, DecidableEq

/-- Modelled from the spec: the on-disk Audio File Artifact of offline
rendering (§3, §4.5) — header plus sample data (32-bit float PCM, so 4
bytes per sample). -/
structure WavFile where
  header : WavHeader
  data : List ℚ
  deriving Repr, DecidableEq

/-- Modelled from the spec: bytes per sample of the encoding (32-bit float
PCM, §4.5). -/
def bytesPerSample : ℕ := 4

/-- Modelled from the spec: `render_to_file(path, duration_seconds)` (§4.4,
§4.5, §6) — rejects a negative duration with a `ConfigurationError`
(a non-finite duration is unrepresentable in this exact-rational
embedding); otherwise computes `total_frames = round(seconds × sample_rate)`
and renders them in bounded chunks, producing a file whose header declares
the engine's sample rate and channel count and whose data-chunk byte length
is the encoded sample count times `bytesPerSample`.  Filesystem failure
(`IOError`) is outside this embedding; the produced `WavFile` is the
content a successful write persists. -/
def renderToFile (e : Engine) (seconds : ℚ) : Except EngineError WavFile :=
  if seconds < 0 then .error .configurationError
  else
    let total := (round (seconds * e.fmt.sampleRate)).toNat
    let buf := (renderDuration e total).1
    .ok { header := { sampleRate := e.fmt.sampleRate
                    , channels := e.fmt.channels
                    , bitsPerSample := 32
                    , dataByteLen := buf.length * bytesPerSample
                    , frameCount := total }
        , data := buf }

/-- Modelled from the spec: a sequence of `render_block` calls driven by one
logical owner (§5) — each call's buffer (or error) is recorded and the
engine state threads through; a failed call leaves the state untouched. -/
def runCalls : Engine → List ℤ → List (Except EngineError (List ℚ))
  | _, [] => []
  | e, n :: rest =>
    match render_block e n with
    | .ok (buf, e2) => .ok buf :: runCalls e2 rest
    | .error err => .error err :: runCalls e rest

/-!
Embedding of the Python binding layer, `python/ambientor_py/__init__.py`
and `python/ambientor_py/_version.py`.  The type `α` abstracts the opaque
native `AmbientorEngine` object produced by the extension's constructor.
-/

/-- `_version.py`: `__version__ = "0.1.0"`. -/
def ambientorVersion : String := "0.1.0"

/-- The keyword arguments the `engine` factory passes to the
`AmbientorEngine` constructor (`__init__.py`, the final `return`): field
names match the keywords used at the call site. -/
structure EngineKwargs where
  sample_rate : ℚ
  channels : ℤ
  gain : ℚ
  deriving Repr, DecidableEq

/-- The native extension module `_ambientor` as seen from the binding: it
exposes the `AmbientorEngine` class, i.e. a constructor taking the keyword
arguments and yielding a native engine object of abstract type `α`. -/
structure CoreModule (α : Type) where
  AmbientorEngine : EngineKwargs → α

/-- A Python exception as observed by the binding's callers: an
`ImportError` carries its message and the `__cause__` installed by
`raise ... from _IMPORT_ERROR`. -/
inductive PyExc where
  | importError (msg : String) (cause : Option String)
  deriving Repr, DecidableEq

/-- Module-level state of `ambientor_py` after `import`: `_core` is the
native module when the `from . import _ambientor` succeeded, else `None`,
and `_IMPORT_ERROR` records the original exception in the failure case
(`__init__.py` lines 31–38). -/
structure PackageState (α : Type) where
  _core : Option (CoreModule α)
  _IMPORT_ERROR : Option String

/-- Package import (`__init__.py` lines 31–38): the `try/except` around
`from . import _ambientor` means importing `ambientor_py` itself always
succeeds, whatever the outcome of the extension import; the argument is
that outcome (an exception message on failure). -/
def initPackage (α : Type) (ext : Except String (CoreModule α)) : PackageState α :=
  match ext with
  | .ok c => { _core := some c, _IMPORT_ERROR := none }
  | .error exc => { _core := none, _IMPORT_ERROR := some exc }

/-- `__all__` (`__init__.py` lines 40–45): `AmbientorEngine` is exported
only when the extension loaded; `engine` and `__version__` always are. -/
def moduleAll (α : Type) (st : PackageState α) : List String :=
  match st._core with
  | some _ => ["AmbientorEngine", "engine", "__version__"]
  | none => ["engine", "__version__"]

/-- The message of the `ImportError` raised by `engine()` when the native
extension is unavailable (`__init__.py` lines 75–79). -/
def engineImportErrorMsg : String :=
  "ambientor_py native extension is not available.\n" ++
  "Make sure the Rust extension is built (e.g. `pip install .` " ++
  "or `maturin develop`) before importing `ambientor_py.engine()`."

/-- Default arguments of the `engine` factory (`__init__.py` lines 48–52):
`sample_rate=48_000.0`, `channels=2`, `gain=0.35`. -/
def engineDefaults : EngineKwargs :=
  { sample_rate := 48000, channels := 2, gain := 35 / 100 }

/-- The `engine(sample_rate, channels, gain)` factory (`__init__.py` lines
48–85): if `_core is None` it raises `ImportError` chained from the
recorded `_IMPORT_ERROR`; otherwise it returns
`AmbientorEngine(sample_rate=..., channels=..., gain=...)`, forwarding the
three arguments unchanged — no validation, clamping, or transformation
happens in this Python layer. -/
def engine (α : Type) (st : PackageState α) (sample_rate : ℚ) (channels : ℤ)
    (gain : ℚ) : Except PyExc α :=
  match st._core with
  | none => .error (.importError engineImportErrorMsg st._IMPORT_ERROR)
  | some c =>
    .ok (c.AmbientorEngine
      { sample_rate := sample_rate, channels := channels, gain := gain })

/-!
Helper lemmas about the engine model.
-/

/-- One frame holds exactly one sample per channel. -/
lemma frameAt_length (e : Engine) (t : ℕ) :
    (frameAt e t).length = e.fmt.channels.toNat := by
  simp [frameAt]

/-- `renderFrames` produces exactly `n × channels` interleaved samples. -/
lemma renderFrames_length (e : Engine) (start n : ℕ) :
    (renderFrames e start n).length = n * e.fmt.channels.toNat := by
  simp [renderFrames, List.length_flatten, frameAt_length, Function.comp_def,
    List.map_map, mul_comm]

/-- The soft limiter's output always lies in `[-1, 1]` when its input does
or is saturated, i.e. unconditionally bounded below by `-1` whenever the
input is, and in general the output is within `[-1, 1]` as long as
saturation brackets the pass-through band. -/
lemma softLimit_mem_Icc (x : ℚ) : -1 ≤ softLimit x ∧ softLimit x ≤ 1 := by
  unfold softLimit
  split
  · constructor <;> norm_num
  · split
    · constructor <;> norm_num
    · rename_i h1 h2
      exact ⟨by linarith, by linarith⟩

/-- The soft limiter passes values with `|x| ≤ 1` through unchanged. -/
lemma softLimit_of_abs_le (x : ℚ) (h : |x| ≤ 1) : softLimit x = x := by
  rw [abs_le] at h
  unfold softLimit
  rw [if_neg (by linarith), if_neg (by linarith)]

/-- Every sample produced by `renderFrames` lies in `[-1, 1]`. -/
lemma renderFrames_mem_Icc (e : Engine) (start n : ℕ) :
    ∀ x ∈ renderFrames e start n, -1 ≤ x ∧ x ≤ 1 := by
  intro x hx
  simp only [renderFrames, List.mem_flatten, List.mem_map, List.mem_range] at hx
  obtain ⟨l, ⟨i, _, rfl⟩, hxl⟩ := hx
  simp only [frameAt, List.mem_map, List.mem_range] at hxl
  obtain ⟨c, _, rfl⟩ := hxl
  exact softLimit_mem_Icc _

/-- Frames depend only on the format and layers, not on the clock field. -/
lemma frameAt_clock_update (e : Engine) (k t : ℕ) :
    frameAt { e with clock := k } t = frameAt e t := rfl

/-- Splitting a render of `a + b` frames at `a`: the first `a` frames from
clock `start` followed by `b` frames from clock `start + a`. -/
lemma renderFrames_add (e : Engine) (start a b : ℕ) :
    renderFrames e start (a + b) =
      renderFrames e start a ++ renderFrames e (start + a) b := by
  unfold renderFrames
  rw [List.range_add, List.map_append, List.flatten_append]
  congr 1
  rw [List.map_map]
  apply congrArg List.flatten
  apply List.map_congr_left
  intro i _
  simp [Function.comp_def, Nat.add_assoc]

/-- `render_block` succeeds on every in-range non-negative request,
returning the frames from the current clock and advancing the clock. -/
lemma render_block_ok (e : Engine) (n : ℕ) (h : n ≤ maxBlockFrames) :
    render_block e (n : ℤ) =
      .ok (renderFrames e e.clock n, { e with clock := e.clock + n }) := by
  unfold render_block
  rw [if_neg (by omega), if_neg (by simp; omega)]
  simp

/-- Frames do not depend on the clock field of the engine record. -/
lemma renderFrames_clock_update (e : Engine) (k start n : ℕ) :
    renderFrames { e with clock := k } start n = renderFrames e start n := rfl

/-- Inversion for successful construction: the engine is exactly the given
format and layers with the Clock at 0, and the parameters were valid. -/
lemma construct_ok_inv {fmt : AudioFormat} {layers : List Layer} {e : Engine}
    (hc : construct fmt layers = .ok e) :
    e = { fmt := fmt, layers := layers, clock := 0 } ∧
      0 < fmt.sampleRate ∧ 1 ≤ fmt.channels := by
  unfold construct at hc
  split at hc
  · rename_i hcond
    cases hc
    exact ⟨rfl, hcond⟩
  · simp at hc

/-- The chunked loop with sufficient fuel produces exactly the requested
frames from the current clock and advances the clock by that amount. -/
lemma renderChunksAux_eq : ∀ (fuel : ℕ) (e : Engine) (remaining : ℕ),
    remaining ≤ fuel →
    renderChunksAux e remaining fuel =
      (renderFrames e e.clock remaining, { e with clock := e.clock + remaining })
  | 0, e, remaining, h => by
    have h0 : remaining = 0 := Nat.le_zero.mp h
    subst h0
    simp [renderChunksAux, renderFrames]
  | fuel + 1, e, remaining, h => by
    by_cases h0 : remaining = 0
    · subst h0
      simp [renderChunksAux, renderFrames]
    · have hminr : min chunkFrames remaining ≤ remaining := Nat.min_le_right _ _
      have hmin1 : 1 ≤ min chunkFrames remaining := by
        have : 1 ≤ chunkFrames := by norm_num [chunkFrames]
        omega
      have hstep_le : min chunkFrames remaining ≤ maxBlockFrames := by
        have h1 : min chunkFrames remaining ≤ chunkFrames := Nat.min_le_left _ _
        have h2 : chunkFrames ≤ maxBlockFrames := by norm_num [chunkFrames, maxBlockFrames]
        omega
      have hrb := render_block_ok e (min chunkFrames remaining) hstep_le
      have hrec := renderChunksAux_eq fuel
        { e with clock := e.clock + min chunkFrames remaining }
        (remaining - min chunkFrames remaining) (by omega)
      simp only [renderChunksAux, if_neg h0, hrb, hrec, renderFrames_clock_update]
      simp only [Prod.mk.injEq]
      constructor
      · rw [← renderFrames_add]
        congr 1
        omega
      · congr 1
        omega

/-- `render_duration` behaves as a single block render: exactly `total`
frames from the current clock, Clock advanced by `total`. -/
lemma renderDuration_eq (e : Engine) (total : ℕ) :
    renderDuration e total =
      (renderFrames e e.clock total, { e with clock := e.clock + total }) :=
  renderChunksAux_eq total e total le_rfl

/-- Doubling the master gain doubles every rendered sample, provided the
doubled-gain pre-limiter values stay within the limiter's pass-through
band `|x| ≤ 1` (which also keeps the original render within the band). -/
lemma renderFrames_double_gain (fmt : AudioFormat) (layers : List Layer) (n : ℕ)
    (hpre : ∀ t < n, ∀ c < fmt.channels.toNat,
      |2 * fmt.gain * stackTick layers t c| ≤ 1) :
    renderFrames { fmt := { fmt with gain := 2 * fmt.gain }, layers := layers, clock := 0 } 0 n
      = (renderFrames { fmt := fmt, layers := layers, clock := 0 } 0 n).map
          fun x => 2 * x := by
  unfold renderFrames
  rw [List.map_flatten]
  apply congrArg List.flatten
  rw [List.map_map]
  apply List.map_congr_left
  intro i hi
  rw [List.mem_range] at hi
  simp only [Function.comp_def]
  unfold frameAt
  rw [List.map_map]
  apply List.map_congr_left
  intro c hc
  rw [List.mem_range] at hc
  simp only [Function.comp_def]
  have hs := hpre (0 + i) (by omega) c hc
  have h1g : |fmt.gain * stackTick layers (0 + i) c| ≤ 1 := by
    have habs : |2 * fmt.gain * stackTick layers (0 + i) c|
        = 2 * |fmt.gain * stackTick layers (0 + i) c| := by
      rw [mul_assoc, abs_mul]
      norm_num
    have := abs_nonneg (fmt.gain * stackTick layers (0 + i) c)
    linarith [habs ▸ hs]
  show mixSample (2 * fmt.gain) (stackTick layers (0 + i) c)
      = 2 * mixSample fmt.gain (stackTick layers (0 + i) c)
  unfold mixSample
  rw [softLimit_of_abs_le _ hs, softLimit_of_abs_le _ h1g, mul_assoc]

/-!
Concrete instances used by the witnesses below.
-/

/-- A small concrete valid format: 2 Hz, mono, master gain 1/2. -/
def demoFormat : AudioFormat := { sampleRate := 2, channels := 1, gain := 1 / 2 }

/-- A concrete layer: a constant generator at unit layer gain and unit pan
weight. -/
def demoLayer : Layer :=
  { gen := fun _ => 1 / 2, layerGain := 1, panWeight := fun _ => 1 }

/-- The engine `construct demoFormat [demoLayer]` yields. -/
def demoEngine : Engine := { fmt := demoFormat, layers := [demoLayer], clock := 0 }

/-- The engine `construct demoFormat []` yields. -/
def plainEngine : Engine := { fmt := demoFormat, layers := [], clock := 0 }

/-- The file produced by `renderToFile plainEngine (1/10)`: the requested
duration rounds to zero frames. -/
def shortWav : WavFile :=
  { header := { sampleRate := 2, channels := 1, bitsPerSample := 32
              , dataByteLen := 0, frameCount := 0 }
  , data := [] }

/-- A format with gain 1/4, used for the gain-doubling witness. -/
def quarterFormat : AudioFormat := { sampleRate := 2, channels := 1, gain := 1 / 4 }

/-- Pre-limiter bound for the gain-doubling witness: with the stack of one
constant 1/2 generator, the doubled-gain pre-limiter value is 1/4. -/
lemma quarter_pre_bound : ∀ t < (1 : ℕ), ∀ c < quarterFormat.channels.toNat,
    |2 * quarterFormat.gain * stackTick [demoLayer] t c| ≤ 1 := by
  intro t _ c _
  simp only [stackTick, Layer.sampleAt, demoLayer, quarterFormat, List.map_cons,
    List.map_nil, List.sum_cons, List.sum_nil]
  rw [abs_le]
  constructor <;> norm_num

/-!
The claims.
-/

/-- C1: For every validly constructed engine (sample rate > 0,
channels ≥ 1) and every `frame_count` within the accepted range,
`render_block(n)` returns an interleaved buffer of exactly `n × channels`
samples, every sample within `[-1, 1]`. -/
theorem render_block_length_and_bounds (fmt : AudioFormat) (layers : List Layer)
    (e : Engine) (n : ℤ) (hc : construct fmt layers = .ok e)
    (hn : 0 ≤ n) (hmax : n.toNat ≤ maxBlockFrames) :
    ∃ buf e', render_block e n = .ok (buf, e') ∧
      buf.length = n.toNat * fmt.channels.toNat ∧
      ∀ x ∈ buf, -1 ≤ x ∧ x ≤ 1 := by
  obtain ⟨he, -, -⟩ := construct_ok_inv hc
  have hcast : render_block e n = render_block e (n.toNat : ℤ) := by
    rw [Int.toNat_of_nonneg hn]
  refine ⟨_, _, hcast.trans (render_block_ok e n.toNat hmax), ?_, ?_⟩
  · rw [renderFrames_length]
    subst he
    rfl
  · exact renderFrames_mem_Icc _ _ _

/-- Witness for C1 on a concrete engine and frame count. -/
theorem render_block_length_and_bounds_witness :
    construct demoFormat [demoLayer] = .ok demoEngine ∧ (0 : ℤ) ≤ 2 ∧
    (2 : ℤ).toNat ≤ maxBlockFrames ∧
    (∃ buf e', render_block demoEngine 2 = .ok (buf, e') ∧
      buf.length = (2 : ℤ).toNat * demoFormat.channels.toNat ∧
      ∀ x ∈ buf, -1 ≤ x ∧ x ≤ 1) :=
  ⟨rfl, by decide, by decide,
    render_block_length_and_bounds demoFormat [demoLayer] demoEngine 2 rfl
      (by decide) (by decide)⟩

/-- C2: Continuity across block boundaries — `render_block(a)` then
`render_block(b)` on one instance, concatenated, equals a single
`render_block(a+b)` on an identically-constructed instance, and the two
final engine states agree (the proof is exact, hence also within any
floating-point tolerance). -/
theorem render_block_continuity (fmt : AudioFormat) (layers : List Layer)
    (e e' : Engine) (a b : ℕ)
    (hc : construct fmt layers = .ok e) (hc' : construct fmt layers = .ok e')
    (hab : a + b ≤ maxBlockFrames) :
    ∃ buf1 e1 buf2 e2 buf12 e12,
      render_block e (a : ℤ) = .ok (buf1, e1) ∧
      render_block e1 (b : ℤ) = .ok (buf2, e2) ∧
      render_block e' ((a : ℤ) + (b : ℤ)) = .ok (buf12, e12) ∧
      buf1 ++ buf2 = buf12 ∧ e2 = e12 := by
  have hee : e = e' := by
    have h := hc.symm.trans hc'
    injection h
  subst hee
  have h1 := render_block_ok e a (by omega)
  have h2 := render_block_ok { e with clock := e.clock + a } b (by omega)
  have hcast : render_block e ((a : ℤ) + (b : ℤ))
      = render_block e (((a + b : ℕ) : ℤ)) := by
    rw [Nat.cast_add]
  have h12 := render_block_ok e (a + b) hab
  refine ⟨_, _, _, _, _, _, h1, h2, hcast.trans h12, ?_, ?_⟩
  · show renderFrames e e.clock a ++ renderFrames e (e.clock + a) b
      = renderFrames e e.clock (a + b)
    rw [← renderFrames_add]
  · show ({ e with clock := e.clock + a + b } : Engine)
      = { e with clock := e.clock + (a + b) }
    rw [Nat.add_assoc]

/-- Witness for C2 on a concrete engine and split 1 + 1. -/
theorem render_block_continuity_witness :
    construct demoFormat [demoLayer] = .ok demoEngine ∧
    1 + 1 ≤ maxBlockFrames ∧
    (∃ buf1 e1 buf2 e2 buf12 e12,
      render_block demoEngine ((1 : ℕ) : ℤ) = .ok (buf1, e1) ∧
      render_block e1 ((1 : ℕ) : ℤ) = .ok (buf2, e2) ∧
      render_block demoEngine (((1 : ℕ) : ℤ) + ((1 : ℕ) : ℤ)) = .ok (buf12, e12) ∧
      buf1 ++ buf2 = buf12 ∧ e2 = e12) :=
  ⟨rfl, by decide,
    render_block_continuity demoFormat [demoLayer] demoEngine demoEngine 1 1
      rfl rfl (by decide)⟩

/-- C3: `render_block(-1)` fails with `InvalidArgument`; the failed call
leaves the Clock and all Generator states untouched (the engine value the
caller holds is the pre-call one), so a following `render_block(1)` agrees
with the first call on a fresh identically-constructed instance. -/
theorem render_block_negative_rejected (fmt : AudioFormat) (layers : List Layer)
    (e : Engine) (hc : construct fmt layers = .ok e) :
    render_block e (-1) = .error .invalidArgument ∧
    ∀ fresh, construct fmt layers = .ok fresh →
      render_block e 1 = render_block fresh 1 := by
  constructor
  · unfold render_block
    rw [if_pos (by decide)]
  · intro fresh hf
    have h := hc.symm.trans hf
    injection h with h'
    rw [h']

/-- Witness for C3 on a concrete engine. -/
theorem render_block_negative_rejected_witness :
    construct demoFormat [demoLayer] = .ok demoEngine ∧
    (render_block demoEngine (-1) = .error .invalidArgument ∧
      ∀ fresh, construct demoFormat [demoLayer] = .ok fresh →
        render_block demoEngine 1 = render_block fresh 1) :=
  ⟨rfl, render_block_negative_rejected demoFormat [demoLayer] demoEngine rfl⟩

/-- C4: `render_block(0)` succeeds with an empty buffer and leaves the
engine — in particular the Clock — unchanged, so any follow-up call
behaves exactly as on a fresh identically-constructed instance. -/
theorem render_block_zero_empty (fmt : AudioFormat) (layers : List Layer)
    (e : Engine) (hc : construct fmt layers = .ok e) :
    render_block e 0 = .ok ([], e) ∧
    ∀ fresh, construct fmt layers = .ok fresh →
      ∀ n : ℤ, render_block e n = render_block fresh n := by
  constructor
  · have h := render_block_ok e 0 (by norm_num [maxBlockFrames])
    have hbuf : renderFrames e e.clock 0 = [] := by simp [renderFrames]
    have heng : ({ e with clock := e.clock + 0 } : Engine) = e := by
      cases e
      simp
    rw [show ((0 : ℕ) : ℤ) = (0 : ℤ) from rfl] at h
    rw [h, hbuf, heng]
  · intro fresh hf n
    have h := hc.symm.trans hf
    injection h with h'
    rw [h']

/-- Witness for C4 on a concrete engine. -/
theorem render_block_zero_empty_witness :
    construct demoFormat [demoLayer] = .ok demoEngine ∧
    (render_block demoEngine 0 = .ok ([], demoEngine) ∧
      ∀ fresh, construct demoFormat [demoLayer] = .ok fresh →
        ∀ n : ℤ, render_block demoEngine n = render_block fresh n) :=
  ⟨rfl, render_block_zero_empty demoFormat [demoLayer] demoEngine rfl⟩

/-- C5: Construction validates its parameters before any state mutation:
with sample rate ≤ 0 or channel count < 1 it fails with a
`ConfigurationError` and creates no engine instance; with valid parameters
it succeeds with the Clock initialized to 0. -/
theorem construct_validates (fmt : AudioFormat) (layers : List Layer) :
    (fmt.sampleRate ≤ 0 ∨ fmt.channels < 1 →
      construct fmt layers = .error .configurationError) ∧
    (0 < fmt.sampleRate → 1 ≤ fmt.channels →
      construct fmt layers = .ok { fmt := fmt, layers := layers, clock := 0 }) := by
  constructor
  · intro h
    unfold construct
    rw [if_neg]
    rintro ⟨ha, hb⟩
    rcases h with h | h
    · linarith
    · omega
  · intro h1 h2
    unfold construct
    rw [if_pos ⟨h1, h2⟩]

/-- Witness for C5: sample rate 0 is rejected; the demo format is accepted
with the Clock at 0. -/
theorem construct_validates_witness :
    construct { sampleRate := 0, channels := 2, gain := 1 } [] =
      .error .configurationError ∧
    construct demoFormat [demoLayer] =
      .ok { fmt := demoFormat, layers := [demoLayer], clock := 0 } :=
  ⟨(construct_validates { sampleRate := 0, channels := 2, gain := 1 } []).1
      (Or.inl le_rfl),
    (construct_validates demoFormat [demoLayer]).2 (by decide) (by decide)⟩

/-- C6 (amended): offline rendering of a non-negative duration produces a
file whose header declares the engine's sample rate and channel count,
whose frame count is `round(duration × sample_rate)` — the spec's
`render_duration` definition; `ceil`, as the claim states it, disagrees
with it, see the counterexample — and whose data length is
`frame_count × channels` samples, i.e. `frame_count × channels ×
bytes_per_sample` bytes exactly. -/
theorem renderToFile_header_and_size (fmt : AudioFormat) (layers : List Layer)
    (e : Engine) (s : ℚ)
    (hc : construct fmt layers = .ok e) (hs : 0 ≤ s) :
    ∃ f, renderToFile e s = .ok f ∧
      f.header.sampleRate = fmt.sampleRate ∧
      f.header.channels = fmt.channels ∧
      f.header.frameCount = (round (s * fmt.sampleRate)).toNat ∧
      f.data.length = f.header.frameCount * fmt.channels.toNat ∧
      f.header.dataByteLen
        = f.header.frameCount * fmt.channels.toNat * bytesPerSample := by
  obtain ⟨he, -, -⟩ := construct_ok_inv hc
  subst he
  unfold renderToFile
  rw [if_neg (not_lt.mpr hs)]
  simp only [renderDuration_eq]
  exact ⟨_, rfl, rfl, rfl, rfl, by rw [renderFrames_length], by rw [renderFrames_length]⟩

/-- Witness for C6 on a concrete engine and duration 1 second. -/
theorem renderToFile_header_and_size_witness :
    construct demoFormat [] = .ok plainEngine ∧ (0 : ℚ) ≤ 1 ∧
    (∃ f, renderToFile plainEngine 1 = .ok f ∧
      f.header.sampleRate = demoFormat.sampleRate ∧
      f.header.channels = demoFormat.channels ∧
      f.header.frameCount = (round ((1 : ℚ) * demoFormat.sampleRate)).toNat ∧
      f.data.length = f.header.frameCount * demoFormat.channels.toNat ∧
      f.header.dataByteLen
        = f.header.frameCount * demoFormat.channels.toNat * bytesPerSample) :=
  ⟨rfl, by decide,
    renderToFile_header_and_size demoFormat [] plainEngine 1 rfl (by decide)⟩

/-- C6 (counterexample to the claim as stated): at sample rate 2 and
duration 1/10 s the file holds `round(1/5) = 0` frames, while the claim's
`ceil(1/5) = 1`. -/
theorem renderToFile_ceil_counterexample :
    renderToFile plainEngine (1 / 10) = .ok shortWav ∧
    shortWav.header.frameCount = 0 ∧
    (⌈(1 / 10 : ℚ) * plainEngine.fmt.sampleRate⌉).toNat = 1 := by
  refine ⟨?_, rfl, ?_⟩
  · unfold renderToFile
    rw [if_neg (by norm_num)]
    have htot : (round ((1 / 10 : ℚ) * plainEngine.fmt.sampleRate)).toNat = 0 := by
      have hmul : (1 / 10 : ℚ) * plainEngine.fmt.sampleRate = 1 / 5 := by
        norm_num [plainEngine, demoFormat]
      rw [hmul, round_eq]
      norm_num
    rw [htot]
    rfl
  · have hmul : (1 / 10 : ℚ) * plainEngine.fmt.sampleRate = 1 / 5 := by
      norm_num [plainEngine, demoFormat]
    rw [hmul]
    have hceil : (⌈(1 / 5 : ℚ)⌉ : ℤ) = 1 := by
      rw [Int.ceil_eq_iff]
      constructor <;> norm_num
    rw [hceil]
    rfl

/-- C7: Determinism — two engines built from identical `AudioFormat` and
identical Layer Stack configuration produce identical output sequences for
the same sequence of render calls (the model has no unseeded randomness:
every generator is a deterministic function of the clock). -/
theorem construct_deterministic (fmt : AudioFormat) (layers : List Layer)
    (e1 e2 : Engine) (calls : List ℤ)
    (h1 : construct fmt layers = .ok e1) (h2 : construct fmt layers = .ok e2) :
    runCalls e1 calls = runCalls e2 calls := by
  have h := h1.symm.trans h2
  injection h with h'
  rw [h']

/-- Witness for C7 on a concrete construction and call sequence. -/
theorem construct_deterministic_witness :
    construct demoFormat [demoLayer] = .ok demoEngine ∧
    runCalls demoEngine [1, -1, 2] = runCalls demoEngine [1, -1, 2] :=
  ⟨rfl, construct_deterministic demoFormat [demoLayer] demoEngine demoEngine
    [1, -1, 2] rfl rfl⟩

/-- C8: Gain linearity below the limiter threshold — with every
(doubled-gain) pre-limiter sample within `|x| ≤ 1`, doubling the master
gain doubles every sample of an otherwise identical render, exactly (hence
within any floating-point tolerance). -/
theorem gain_doubling_linear (fmt : AudioFormat) (layers : List Layer)
    (e1 e2 : Engine) (n : ℕ)
    (h1 : construct fmt layers = .ok e1)
    (h2 : construct { fmt with gain := 2 * fmt.gain } layers = .ok e2)
    (hn : n ≤ maxBlockFrames)
    (hpre : ∀ t < n, ∀ c < fmt.channels.toNat,
      |2 * fmt.gain * stackTick layers t c| ≤ 1) :
    ∃ buf1 e1' buf2 e2',
      render_block e1 (n : ℤ) = .ok (buf1, e1') ∧
      render_block e2 (n : ℤ) = .ok (buf2, e2') ∧
      buf2 = buf1.map fun x => 2 * x := by
  obtain ⟨he1, -, -⟩ := construct_ok_inv h1
  obtain ⟨he2, -, -⟩ := construct_ok_inv h2
  subst he1 he2
  exact ⟨_, _, _, _, render_block_ok _ n hn, render_block_ok _ n hn,
    renderFrames_double_gain fmt layers n hpre⟩

/-- Witness for C8 on a concrete engine pair (gains 1/4 and 1/2). -/
theorem gain_doubling_linear_witness :
    construct quarterFormat [demoLayer] =
      .ok { fmt := quarterFormat, layers := [demoLayer], clock := 0 } ∧
    construct { quarterFormat with gain := 2 * quarterFormat.gain } [demoLayer] =
      .ok { fmt := { quarterFormat with gain := 2 * quarterFormat.gain }
          , layers := [demoLayer], clock := 0 } ∧
    (∃ buf1 e1' buf2 e2',
      render_block { fmt := quarterFormat, layers := [demoLayer], clock := 0 }
        ((1 : ℕ) : ℤ) = .ok (buf1, e1') ∧
      render_block { fmt := { quarterFormat with gain := 2 * quarterFormat.gain }
                   , layers := [demoLayer], clock := 0 }
        ((1 : ℕ) : ℤ) = .ok (buf2, e2') ∧
      buf2 = buf1.map fun x => 2 * x) :=
  ⟨rfl, rfl,
    gain_doubling_linear quarterFormat [demoLayer] _ _ 1 rfl rfl (by decide)
      quarter_pre_bound⟩

/-- C9: When the native extension failed to import, `engine(...)` raises an
`ImportError` chained from the original failure (for every argument
combination) and constructs nothing; importing `ambientor_py` itself still
succeeds — `initPackage` is total — and still exposes `engine` and
`__version__`, while `AmbientorEngine` is exported only when the extension
loaded. -/
theorem engine_requires_extension (α : Type) (exc : String)
    (sr : ℚ) (ch : ℤ) (g : ℚ) :
    engine α (initPackage α (.error exc)) sr ch g =
      .error (.importError engineImportErrorMsg (some exc)) ∧
    "engine" ∈ moduleAll α (initPackage α (.error exc)) ∧
    "__version__" ∈ moduleAll α (initPackage α (.error exc)) ∧
    "AmbientorEngine" ∉ moduleAll α (initPackage α (.error exc)) ∧
    ∀ core : CoreModule α, "AmbientorEngine" ∈ moduleAll α (initPackage α (.ok core)) := by
  refine ⟨rfl, ?_, ?_, ?_, fun core => ?_⟩ <;> simp [moduleAll, initPackage]

/-- C10: The `engine` factory performs no validation, clamping, or
transformation: for every `sample_rate`, `channels`, `gain` — including
out-of-range values such as `sample_rate = 0`, `channels = 0`, or a gain
outside `[0, 1]` — it forwards exactly those values as the keyword
arguments of the `AmbientorEngine` constructor, and its defaults are
48000.0, 2, and 0.35. -/
theorem engine_forwards_kwargs (α : Type) (core : CoreModule α)
    (sr : ℚ) (ch : ℤ) (g : ℚ) :
    engine α (initPackage α (.ok core)) sr ch g =
      .ok (core.AmbientorEngine
        { sample_rate := sr, channels := ch, gain := g }) ∧
    engineDefaults = { sample_rate := 48000, channels := 2, gain := 35 / 100 } :=
  ⟨rfl, rfl⟩

end Ambientor
